import Mathlib

/-!
# Verification of the ss.lv listing monitor core

Shallow embedding of `ss_lv_monitor.py` (class `SSLVMonitor`): the field
normalizers `extract_price` and `extract_area`, the criteria matcher
`meets_criteria`, the per-row record extraction of `scrape_listings`, the
seen-state store (`load_known_listings`, `save_known_listings`) and the run
orchestrator `check_for_new_listings`.

Modelling conventions:
* Python strings are `List Char`; `str.lower()` is a character-wise map with
  `Char.toLower` (ASCII case folding, which is all the verified statements
  depend on).
* Python floats are `ℚ` (every numeric value in the verified statements is
  exactly representable).
* Python sets of ids are duplicate-free `List (List Char)` built by guarded
  insertion; membership is list membership.
* Exceptions are modelled by `Option` results or explicit outcome parameters;
  logging and timestamps are outside the embedding (no claim mentions them).
-/

abbrev Str := List Char

/-- Python `needle in hay` substring containment on strings. -/
def inStr (needle : Str) : Str → Bool
  | [] => needle.isPrefixOf []
  | c :: t => needle.isPrefixOf (c :: t) || inStr needle t

/-- Python `s.lower()` (ASCII case folding). -/
def toLowerStr (s : Str) : Str := s.map Char.toLower

/-- Numeric value of a string of decimal digits (most significant first). -/
def digitsVal (ds : Str) : ℕ := ds.foldl (fun n c => n * 10 + (c.toNat - 48)) 0

/-- Split a string at every occurrence of the character '.'. -/
def splitOnDot : Str → List Str
  | [] => [[]]
  | c :: t =>
    let r := splitOnDot t
    if c == '.' then [] :: r
    else (c :: r.headD []) :: r.tail

/-- Python `float(s)` restricted to strings made of decimal digits and periods
(the only shape `extract_price` and `extract_area` ever pass to it):
`some` of the value when the string has at least one digit and at most one
period, `none` (an exception in Python) otherwise. -/
def pyFloat (s : Str) : Option ℚ :=
  if s.all (fun c => c.isDigit || c == '.') then
    match splitOnDot s with
    | [d] => if d.isEmpty then none else some (digitsVal d)
    | [a, b] =>
      if a.isEmpty && b.isEmpty then none
      else some ((digitsVal a : ℚ) + (digitsVal b : ℚ) / (10 : ℚ) ^ b.length)
    | _ => none
  else none

/-- Embeds `SSLVMonitor.extract_price`: empty text gives 0; otherwise every character
other than a digit, comma or period is stripped (`re.sub`), every comma is
removed (`str.replace`), and the remainder is parsed with `float`, a failure
giving 0. -/
def extract_price (price_text : Str) : ℚ :=
  if price_text.isEmpty then 0
  else
    let price_clean := price_text.filter fun c => c.isDigit || c == ',' || c == '.'
    let price_clean := price_clean.filter fun c => c != ','
    match pyFloat price_clean with
    | some v => v
    | none => 0

/-- Longest prefix of decimal digits and the rest of the string. -/
def takeDigits : Str → Str × Str
  | [] => ([], [])
  | c :: t =>
    if c.isDigit then
      let (d, r) := takeDigits t
      (c :: d, r)
    else ([], c :: t)

/-- The text matched by the regular expression `\d+(?:\.\d+)?` anchored at the
start of `l` (which must start with a digit): greedy digits, then optionally a
period followed by at least one digit. -/
def matchNumAt (l : Str) : Str :=
  let (d1, r) := takeDigits l
  match r with
  | '.' :: r2 =>
    let (d2, _) := takeDigits r2
    if d2.isEmpty then d1 else d1 ++ '.' :: d2
  | _ => d1

/-- Models `re.search` with pattern digits, optional period, digits: the first (leftmost) match of an
integer or decimal number, if any. -/
def searchNumber : Str → Option Str
  | [] => none
  | c :: t => if c.isDigit then some (matchNumAt (c :: t)) else searchNumber t

/-- Embeds `SSLVMonitor.extract_area`: empty text gives 0; otherwise the first
substring matching `\d+(?:\.\d+)?` is parsed with `float`, absence of a match
giving 0. -/
def extract_area (area_text : Str) : ℚ :=
  if area_text.isEmpty then 0
  else
    match searchNumber area_text with
    | some m =>
      match pyFloat m with
      | some v => v
      | none => 0
    | none => 0

/-- The `SEARCH_CRITERIA` configuration dictionary: numeric bounds and the two
keyword lists. The verified statements quantify over all values of it. -/
structure Criteria where
  min_price : ℚ
  max_price : ℚ
  keywords_include : List Str
  keywords_exclude : List Str
  min_area : ℚ
deriving DecidableEq

/-- One listing dictionary as built by `scrape_listings`. The `scraped_at`
timestamp is outside the embedding (no verified statement mentions it). -/
structure Listing where
  id : Str
  title : Str
  price : ℚ
  area : ℚ
  description : Str
  link : Str
  source_url : Str
deriving DecidableEq

/-- The haystack `meets_criteria` matches keywords against:
`f"{listing.get('title', '')} {listing.get('description', '')}".lower()`. -/
def text_content (listing : Listing) : Str :=
  toLowerStr (listing.title ++ ' ' :: listing.description)

/-- Embeds `SSLVMonitor.meets_criteria`: price bounds (only when `price > 0`), area
floor (only when `area > 0`), then the include/exclude keyword checks over the
lowercased title-plus-description haystack. The surrounding `try/except`
returning `False` can never fire in the embedding (every step is total). -/
def meets_criteria (crit : Criteria) (listing : Listing) : Bool :=
  if listing.price > 0 ∧
      (listing.price < crit.min_price ∨ listing.price > crit.max_price) then
    false
  else if listing.area > 0 ∧ listing.area < crit.min_area then
    false
  else if !crit.keywords_include.isEmpty &&
      !(crit.keywords_include.any fun keyword =>
        inStr (toLowerStr keyword) (text_content listing)) then
    false
  else if !crit.keywords_exclude.isEmpty &&
      (crit.keywords_exclude.any fun keyword =>
        inStr (toLowerStr keyword) (text_content listing)) then
    false
  else
    true

/-- One `<td>` cell of a listing row: its stripped visible text
(`get_text(strip=True)`) and, when the cell holds an `<a>` element carrying an
`href` attribute, that attribute's value. -/
structure Cell where
  text : Str
  href : Option Str
deriving DecidableEq

/-- One `<tr>` row of the listings table: its `id` attribute and its cells. -/
structure Row where
  id : Str
  cells : List Cell
deriving DecidableEq

/-- Python `row_id.replace('tr_', '')`: remove every (leftmost-first,
non-overlapping) occurrence of `tr_`. -/
def stripTrMarkers : Str → Str
  | 't' :: 'r' :: '_' :: rest => stripTrMarkers rest
  | c :: rest => c :: stripTrMarkers rest
  | [] => []

/-- The title/link search: the first cell holding an `<a>` element with a
truthy (non-empty) `href`, together with that href. -/
def findTitleCell : List Cell → Option (Cell × Str)
  | [] => none
  | c :: t =>
    match c.href with
    | some h => if h.isEmpty then findTitleCell t else some (c, h)
    | none => findTitleCell t

/-- The condition under which a cell's text joins the description:
`if text and text != title and '€' not in text and 'm²' not in text`. -/
def descCellOk (title text : Str) : Bool :=
  !text.isEmpty && !(text == title) && !(text.contains '€') && !(inStr ("m²".toList) text)

/-- Python `' | '.join(parts)`. -/
def joinBar : List Str → Str
  | [] => []
  | [p] => p
  | p :: ps => p ++ ' ' :: '|' :: ' ' :: joinBar ps

/-- The body of the per-row loop of `SSLVMonitor.scrape_listings`: `none`
models a `continue` (empty id, fewer than four cells, or no title/link cell).
Field extraction follows the source: the first cell containing the euro sign
or `EUR` feeds `extract_price`; the first cell containing `m²` or `m2` feeds
`extract_area`; cells passing `descCellOk` are joined into the description in
cell order. -/
def processRow (url : Str) (row : Row) : Option Listing :=
  let listing_id := stripTrMarkers row.id
  if listing_id.isEmpty then none
  else
    let cells := row.cells
    if cells.length < 4 then none
    else
      match findTitleCell cells with
      | none => none
      | some (title_cell, href) =>
        let link := if ("http".toList).isPrefixOf href then href
                    else "https://www.ss.lv".toList ++ href
        let title := title_cell.text
        let price :=
          match cells.find? (fun c => c.text.contains '€' || inStr ("EUR".toList) c.text) with
          | some c => extract_price c.text
          | none => 0
        let area :=
          match cells.find? (fun c => inStr ("m²".toList) c.text || inStr ("m2".toList) c.text) with
          | some c => extract_area c.text
          | none => 0
        let description_parts := cells.foldl
          (fun parts c => if descCellOk title c.text then parts ++ [c.text] else parts) []
        some { id := listing_id, title := title, price := price, area := area,
               description := joinBar description_parts, link := link, source_url := url }

/-- Embeds `SSLVMonitor.scrape_listings` on one already-fetched page: keep the rows
whose `id` attribute is present and starts with `tr_` (the `find_all`
predicate), then run the per-row extraction, a `continue` dropping the row. -/
def scrape_listings (url : Str) (rows : List Row) : List Listing :=
  (rows.filter fun r => ("tr_".toList).isPrefixOf r.id).filterMap (processRow url)

/-- One monitored source: its URL and the listing rows of the fetched page. -/
structure Page where
  url : Str
  rows : List Row
deriving DecidableEq

/-- The per-listing body of the loop in `check_for_new_listings`: a known id
is skipped; a new id is added to the known set first and the listing is then
appended to the matches exactly when it meets the criteria. The state is the
pair (known id set, accumulated `new_matching_listings`). -/
def classify (crit : Criteria) (st : List Str × List Listing) (listing : Listing) :
    List Str × List Listing :=
  if listing.id ∈ st.1 then st
  else if meets_criteria crit listing then
    (listing.id :: st.1, st.2 ++ [listing])
  else
    (listing.id :: st.1, st.2)

/-- The per-source body of the loop in `check_for_new_listings`: scrape the
page, then classify each of its records in order. -/
def processSource (crit : Criteria) (st : List Str × List Listing) (p : Page) :
    List Str × List Listing :=
  (scrape_listings p.url p.rows).foldl (classify crit) st

/-- Embeds `SSLVMonitor.check_for_new_listings` over already-fetched pages:
every source is scraped and classified in order; the first component of the
result is the known-id set that `save_known_listings` then persists (saved
once, after all sources), the second is `new_matching_listings`. The
inter-request sleep and the per-source logging are outside the embedding. -/
def check_for_new_listings (crit : Criteria) (pages : List Page) (known : List Str) :
    List Str × List Listing :=
  pages.foldl (processSource crit) (known, [])

/-- All records the Record Extractor produces during one run over `pages`. -/
def extractedRecords (pages : List Page) : List Listing :=
  (pages.map fun p => scrape_listings p.url p.rows).flatten

/-- JSON values, for the content of the durable state file. -/
inductive Json where
  | null
  | bool (b : Bool)
  | num (q : ℚ)
  | str (s : Str)
  | arr (elems : List Json)
  | obj (fields : List (Str × Json))

/-- Lookup in a parsed JSON object (`data.get(key, default)` without the
default); the parser has already resolved duplicate keys. -/
def jsonLookup (fields : List (Str × Json)) (key : Str) : Option Json :=
  match fields with
  | [] => none
  | (k, v) :: t => if k = key then some v else jsonLookup t key

/-- Whether a JSON value is an object (a Python dict after `json.load`). -/
def Json.isObj : Json → Bool
  | .obj _ => true
  | _ => false

/-- Whether the Python value of a JSON value is hashable: lists and dicts are
not, so `set(...)` raises `TypeError` on a list containing one. -/
def hashableJson : Json → Bool
  | .arr _ => false
  | .obj _ => false
  | _ => true

/-- Whether the Python value of a JSON value is iterable: strings, lists and
dicts are; `set(v)` raises `TypeError` on anything else. -/
def iterableJson : Json → Bool
  | .str _ => true
  | .arr _ => true
  | .obj _ => true
  | _ => false

/-- Python `set(value)` on the JSON value bound to `known_listings`, as a
list of elements: a list of hashable members yields its members; a string
yields its one-character substrings; a dict yields its keys (dicts iterate
over their keys and raise nothing). A `TypeError` (non-iterable value, or a
list containing an unhashable member) propagates to the caller's `except`,
which returns the empty set, so the raise-then-catch is folded into `[]`
here. Iteration order and deduplication of the Python set are abstracted;
no verified statement depends on them. -/
def setOfJson : Json → List Json
  | .arr elems => if elems.all hashableJson then elems else []
  | .str s => s.map fun c => Json.str [c]
  | .obj kfields => kfields.map fun kv => Json.str kv.1
  | _ => []

/-- State of the durable data file as `load_known_listings` sees it:
missing; present but unreadable or not parseable as JSON (`open` or
`json.load` raises); or parsed to a JSON value. -/
inductive FileState where
  | absent
  | unreadable
  | parsed (j : Json)

/-- Embeds `SSLVMonitor.load_known_listings`. A missing file falls through to
`return set()`; any exception (unreadable file, malformed JSON, `.get` on a
non-dict, `TypeError` inside `set(...)`) is caught and also yields `set()`.
When the top level is a dict, the source computes
`set(data.get('known_listings', []))`: the lookup with the empty-list default
(`Option.getD`) followed by `set` (`setOfJson`). -/
def load_known_listings : FileState → List Json
  | .absent => []
  | .unreadable => []
  | .parsed (.obj fields) =>
    setOfJson ((jsonLookup fields ("known_listings".toList)).getD (Json.arr []))
  | .parsed _ => []

/-- How far a call to `save_known_listings` gets: the `open` call itself
fails; `open` succeeds but the write fails after `written` characters of the
serialized payload reached the file; or everything succeeds. -/
inductive SaveOutcome where
  | openFail
  | writeFail (written : ℕ)
  | ok
deriving DecidableEq

/-- Embeds `SSLVMonitor.save_known_listings` acting on the durable file
(`none` = absent, `some s` = content `s`). The source opens `DATA_FILE` with
mode `'w'`, which truncates the file at once, and then `json.dump` streams the
serialized payload into it; the `except` branch only logs, so the function
always returns. Consequently a failure before `open` leaves the prior content,
while a failure after `open` leaves exactly the prefix of the new payload
written so far. -/
def save_known_listings (prior : Option Str) (payload : Str) : SaveOutcome → Option Str
  | .openFail => prior
  | .writeFail k => some (payload.take k)
  | .ok => some payload

/-- Criteria used for the concrete scenario: the price window, area floor and
keyword lists of the shipped `SEARCH_CRITERIA` restricted to one include and
one exclude keyword. -/
def sampleCriteria : Criteria :=
  { min_price := 10000
    max_price := 150000
    keywords_include := ["māja".toList]
    keywords_exclude := ["bojāts".toList]
    min_area := 50 }

/-- Row of listing `a1` of the end-to-end scenario: within the price window,
large enough area, keyword present. -/
def rowA1 : Row :=
  { id := "tr_a1".toList
    cells := [⟨"Māja Olainē".toList, some ("/msg/1.html".toList)⟩,
              ⟨"50000 €".toList, none⟩,
              ⟨"80 m²".toList, none⟩,
              ⟨"Olaine".toList, none⟩] }

/-- Row of listing `a2` of the end-to-end scenario: price above the window, so
the filter rejects the record. -/
def rowA2 : Row :=
  { id := "tr_a2".toList
    cells := [⟨"Liela māja".toList, some ("/msg/2.html".toList)⟩,
              ⟨"200000 €".toList, none⟩,
              ⟨"90 m²".toList, none⟩,
              ⟨"Olaine".toList, none⟩] }

/-- One monitored page holding the two scenario rows. -/
def samplePage : Page :=
  { url := "https://www.ss.lv/lv/real-estate/filter/".toList
    rows := [rowA1, rowA2] }

/-- The record `scrape_listings` extracts from `rowA2`. -/
def listingA2 : Listing :=
  { id := "a2".toList
    title := "Liela māja".toList
    price := 200000
    area := 90
    description := "Olaine".toList
    link := "https://www.ss.lv/msg/2.html".toList
    source_url := samplePage.url }

/-- Record with `price = 0` and `area = 0` (both sentinels), titled
`"Cozy House"`, empty description. -/
def cozyHouse : Listing :=
  { id := "c1".toList
    title := "Cozy House".toList
    price := 0
    area := 0
    description := []
    link := []
    source_url := [] }

/-- The same record with description `"slightly damaged"`. -/
def cozyHouseDamaged : Listing :=
  { cozyHouse with description := "slightly damaged".toList }

/-- Criteria with `includeKeywords = {"house"}` and no exclusions. -/
def houseCriteria : Criteria :=
  { min_price := 10000
    max_price := 150000
    keywords_include := ["house".toList]
    keywords_exclude := []
    min_area := 50 }

/-- `houseCriteria` with `excludeKeywords = {"damaged"}` added. -/
def damagedExcludeCriteria : Criteria :=
  { houseCriteria with keywords_exclude := ["damaged".toList] }

/-- `houseCriteria` with an include keyword the cozy-house record lacks. -/
def villaCriteria : Criteria :=
  { houseCriteria with keywords_include := ["villa".toList] }

/-- `houseCriteria` with a different (wider) price window. -/
def widePriceCriteria : Criteria :=
  { houseCriteria with min_price := 0, max_price := 10 }

/-- Row with only three cells, a non-empty id and a hyperlink cell. -/
def smallRow : Row :=
  { id := "tr_x1".toList
    cells := [⟨"Nice house".toList, some ("/msg/9.html".toList)⟩,
              ⟨"5000 €".toList, none⟩,
              ⟨"60 m²".toList, none⟩] }

/-- Row whose price cell uses the ASCII `EUR` marker and whose area cell uses
the ASCII `m2` marker. -/
def cozyRow : Row :=
  { id := "tr_c6".toList
    cells := [⟨"Cozy House".toList, some ("/msg/6.html".toList)⟩,
              ⟨"150000 EUR".toList, none⟩,
              ⟨"80 m2".toList, none⟩,
              ⟨"Olaine".toList, none⟩] }

/-- The record `scrape_listings` extracts from `cozyRow`. -/
def listingC6 : Listing :=
  { id := "c6".toList
    title := "Cozy House".toList
    price := 150000
    area := 80
    description := "150000 EUR | 80 m2 | Olaine".toList
    link := "https://www.ss.lv/msg/6.html".toList
    source_url := "u".toList }

/-- Modelled from the claim wording (spec section 4.2 step 4 with the marker
vocabulary of step 3): a cell contributes to the description when its text is
non-empty, differs from the title, and contains no currency marker (euro sign
or `EUR` token) and no area-unit marker (`m²` or `m2`). Defined for comparison
against the description `processRow` actually builds. -/
def descriptionPerClaim (title : Str) (cells : List Cell) : Str :=
  joinBar ((cells.map Cell.text).filter fun t =>
    !t.isEmpty && !(t == title) &&
    !(t.contains '€' || inStr ("EUR".toList) t) &&
    !(inStr ("m²".toList) t || inStr ("m2".toList) t))

lemma classify_mem_of_mem (crit : Criteria) (st : List Str × List Listing)
    (listing : Listing) {x : Str} (h : x ∈ st.1) : x ∈ (classify crit st listing).1 := by
  unfold classify
  split
  · exact h
  · split
    · exact List.mem_cons_of_mem _ h
    · exact List.mem_cons_of_mem _ h

lemma classify_id_mem (crit : Criteria) (st : List Str × List Listing)
    (listing : Listing) : listing.id ∈ (classify crit st listing).1 := by
  unfold classify
  split
  · assumption
  · split
    · exact List.mem_cons_self _ _
    · exact List.mem_cons_self _ _

lemma foldl_classify_mem (crit : Criteria) (ls : List Listing) :
    ∀ (st : List Str × List Listing) {x : Str}, x ∈ st.1 →
      x ∈ (ls.foldl (classify crit) st).1 := by
  induction ls with
  | nil => intro st x h; exact h
  | cons l t ih => intro st x h; exact ih _ (classify_mem_of_mem _ _ _ h)

lemma foldl_classify_id_mem (crit : Criteria) (ls : List Listing) :
    ∀ (st : List Str × List Listing) {l : Listing}, l ∈ ls →
      l.id ∈ (ls.foldl (classify crit) st).1 := by
  induction ls with
  | nil => intro st l h; cases h
  | cons a t ih =>
    intro st l h
    cases h with
    | head => exact foldl_classify_mem crit t (classify crit st a) (classify_id_mem crit st a)
    | tail _ hm => exact ih _ hm

lemma foldl_classify_stable (crit : Criteria) (ls : List Listing) :
    ∀ (st : List Str × List Listing), (∀ l ∈ ls, l.id ∈ st.1) →
      ls.foldl (classify crit) st = st := by
  induction ls with
  | nil => intro st _; rfl
  | cons a t ih =>
    intro st h
    have ha : classify crit st a = st := by
      unfold classify
      rw [if_pos (h a (List.mem_cons_self _ _))]
    show t.foldl (classify crit) (classify crit st a) = st
    rw [ha]
    exact ih st fun l hl => h l (List.mem_cons_of_mem _ hl)

lemma extractedRecords_cons (p : Page) (ps : List Page) :
    extractedRecords (p :: ps) = scrape_listings p.url p.rows ++ extractedRecords ps := by
  simp [extractedRecords]

lemma run_mem (crit : Criteria) (pages : List Page) :
    ∀ (st : List Str × List Listing) {x : Str}, x ∈ st.1 →
      x ∈ (pages.foldl (processSource crit) st).1 := by
  induction pages with
  | nil => intro st x h; exact h
  | cons p ps ih => intro st x h; exact ih _ (foldl_classify_mem _ _ _ h)

lemma run_extracted_mem (crit : Criteria) (pages : List Page) :
    ∀ (st : List Str × List Listing) {l : Listing}, l ∈ extractedRecords pages →
      l.id ∈ (pages.foldl (processSource crit) st).1 := by
  induction pages with
  | nil => intro st l h; simp [extractedRecords] at h
  | cons p ps ih =>
    intro st l h
    rw [extractedRecords_cons] at h
    cases List.mem_append.mp h with
    | inl hl =>
      exact run_mem crit ps (processSource crit st p) (foldl_classify_id_mem crit _ st hl)
    | inr hr => exact ih _ hr

lemma run_stable (crit : Criteria) (pages : List Page) :
    ∀ (st : List Str × List Listing), (∀ l ∈ extractedRecords pages, l.id ∈ st.1) →
      pages.foldl (processSource crit) st = st := by
  induction pages with
  | nil => intro st _; rfl
  | cons p ps ih =>
    intro st h
    rw [extractedRecords_cons] at h
    have h1 : processSource crit st p = st :=
      foldl_classify_stable _ _ _ fun l hl => h l (List.mem_append_left _ hl)
    show ps.foldl (processSource crit) (processSource crit st p) = st
    rw [h1]
    exact ih st fun l hl => h l (List.mem_append_right _ hl)

lemma load_parsed_obj (fields : List (Str × Json)) :
    load_known_listings (FileState.parsed (Json.obj fields)) =
      setOfJson ((jsonLookup fields ("known_listings".toList)).getD (Json.arr [])) := rfl

lemma searchNumber_skip (pre rest : Str) (h : (pre.all fun c => !c.isDigit) = true) :
    searchNumber (pre ++ rest) = searchNumber rest := by
  induction pre with
  | nil => rfl
  | cons c t ih =>
    rw [List.all_cons, Bool.and_eq_true] at h
    show (if c.isDigit then some (matchNumAt (c :: (t ++ rest))) else searchNumber (t ++ rest))
        = searchNumber rest
    rw [if_neg (by simp_all), ih h.2]

lemma searchNumber_none (s : Str) (h : (s.all fun c => !c.isDigit) = true) :
    searchNumber s = none := by
  have hs := searchNumber_skip s [] h
  rw [List.append_nil] at hs
  exact hs

lemma processRow_small_none (url : Str) (row : Row) (h : row.cells.length < 4) :
    processRow url row = none := by
  simp [processRow, h]

lemma foldl_collect_eq_filter (title : Str) (cells : List Cell) :
    ∀ acc : List Str,
      cells.foldl (fun parts c => if descCellOk title c.text then parts ++ [c.text] else parts) acc
        = acc ++ (cells.map Cell.text).filter (descCellOk title) := by
  induction cells with
  | nil => intro acc; simp
  | cons c t ih =>
    intro acc
    by_cases hc : descCellOk title c.text
    · simp [List.foldl_cons, List.filter_cons, hc, ih]
    · simp [List.foldl_cons, List.filter_cons, hc, ih]

/-- C1: after a run of the orchestrator, every listing id extracted during
that run is present in the known-id set that is persisted at the end of the
run, regardless of whether the record matched the filter — the id is added
before the criteria check, and the set is saved once after all sources. -/
theorem claim_C1 (crit : Criteria) (pages : List Page) (known : List Str)
    (l : Listing) (h : l ∈ extractedRecords pages) :
    l.id ∈ (check_for_new_listings crit pages known).1 :=
  run_extracted_mem crit pages (known, []) h

/-- Witness for C1 at the end-to-end scenario: listing `a2` is rejected by
the filter (price 200000 exceeds the maximum), yet its id ends up in the
persisted known-id set. -/
theorem claim_C1_witness :
    meets_criteria sampleCriteria listingA2 = false ∧
    listingA2.id ∈ (check_for_new_listings sampleCriteria [samplePage] []).1 :=
  ⟨by decide, claim_C1 sampleCriteria [samplePage] [] listingA2 (by decide)⟩

/-- C4: running the full check twice in immediate succession over unchanged
sources yields zero new matching records on the second run — every id
extracted during the first run is already in the seen-state. -/
theorem claim_C4 (crit : Criteria) (pages : List Page) (known : List Str) :
    (check_for_new_listings crit pages (check_for_new_listings crit pages known).1).2 = [] := by
  unfold check_for_new_listings
  rw [run_stable crit pages
    ((pages.foldl (processSource crit) (known, [])).1, ([] : List Listing))
    fun l hl => run_extracted_mem crit pages (known, []) hl]

/-- C2: sentinel permissiveness of the matcher. With `price = 0` the result
of `meets_criteria` does not depend on the price bounds; with `area = 0` it
does not depend on the area floor. -/
theorem claim_C2 (l : Listing) (c1 c2 : Criteria) :
    (l.price = 0 →
      c1.min_area = c2.min_area →
      c1.keywords_include = c2.keywords_include →
      c1.keywords_exclude = c2.keywords_exclude →
      meets_criteria c1 l = meets_criteria c2 l) ∧
    (l.area = 0 →
      c1.min_price = c2.min_price →
      c1.max_price = c2.max_price →
      c1.keywords_include = c2.keywords_include →
      c1.keywords_exclude = c2.keywords_exclude →
      meets_criteria c1 l = meets_criteria c2 l) := by
  constructor
  · intro hp h1 h2 h3
    simp [meets_criteria, hp, h1, h2, h3]
  · intro ha h1 h2 h3 h4
    simp [meets_criteria, ha, h1, h2, h3, h4]

/-- Witness for C2: the cozy-house record has `price = 0`, and two criteria
differing only in their price bounds classify it identically. -/
theorem claim_C2_witness :
    meets_criteria houseCriteria cozyHouse = meets_criteria widePriceCriteria cozyHouse :=
  (claim_C2 cozyHouse houseCriteria widePriceCriteria).1 rfl rfl rfl rfl

/-- C3: keyword matching over the haystack `lowercase(title + " " +
description)`. A non-empty include list with no member occurring in the
haystack rejects; a non-empty exclude list with a member occurring in the
haystack rejects; the cozy-house record matches `{"house"}` and is rejected
once `"damaged"` is excluded and occurs in the description. -/
theorem claim_C3 :
    (∀ (crit : Criteria) (l : Listing), crit.keywords_include ≠ [] →
      (crit.keywords_include.any fun kw => inStr (toLowerStr kw) (text_content l)) = false →
      meets_criteria crit l = false) ∧
    (∀ (crit : Criteria) (l : Listing), crit.keywords_exclude ≠ [] →
      (crit.keywords_exclude.any fun kw => inStr (toLowerStr kw) (text_content l)) = true →
      meets_criteria crit l = false) ∧
    meets_criteria houseCriteria cozyHouse = true ∧
    meets_criteria damagedExcludeCriteria cozyHouseDamaged = false := by
  refine ⟨?_, ?_, by decide, by decide⟩
  · intro crit l hne hnone
    have hei : crit.keywords_include.isEmpty = false := by
      cases hki : crit.keywords_include with
      | nil => exact absurd hki hne
      | cons a t => rfl
    unfold meets_criteria
    split
    · rfl
    · split
      · rfl
      · rw [if_pos (by rw [hei, hnone]; rfl)]
  · intro crit l hne hsome
    have hee : crit.keywords_exclude.isEmpty = false := by
      cases hke : crit.keywords_exclude with
      | nil => exact absurd hke hne
      | cons a t => rfl
    unfold meets_criteria
    split
    · rfl
    · split
      · rfl
      · split
        · rfl
        · rw [if_pos (by rw [hee, hsome]; rfl)]

/-- Witness for C3: the first (include) clause applied to the cozy-house
record and an include keyword it lacks. -/
theorem claim_C3_witness : meets_criteria villaCriteria cozyHouse = false :=
  claim_C3.1 villaCriteria cozyHouse (by decide) (by decide)

/-- C10: a row with fewer than four cells is silently discarded, whatever its
id or hyperlink cells, and conversely every emitted record comes from a row
with at least four cells. -/
theorem claim_C10 :
    (∀ (url : Str) (row : Row), row.cells.length < 4 → processRow url row = none) ∧
    (∀ (url : Str) (row : Row) (l : Listing), processRow url row = some l →
      4 ≤ row.cells.length) := by
  constructor
  · exact fun url row h => processRow_small_none url row h
  · intro url row l h
    by_contra hlt
    rw [processRow_small_none url row (by omega)] at h
    exact Option.noConfusion h

/-- Witness for C10: a three-cell row carrying a non-empty listing id and a
hyperlink cell still produces no record. -/
theorem claim_C10_witness :
    processRow ("u".toList) smallRow = none ∧
    stripTrMarkers smallRow.id ≠ [] ∧
    (∃ c ∈ smallRow.cells, c.href ≠ none) :=
  ⟨claim_C10.1 ("u".toList) smallRow (by decide), by decide, by decide⟩

/-- C7: `extract_price` follows the strip-and-parse algorithm and is total —
the documented examples hold, and whenever the cleaned string (non-digit,
non-comma, non-period characters stripped, then commas removed) is not a
valid number the result is the 0 sentinel rather than an error. -/
theorem claim_C7 :
    extract_price ("150,000 €".toList) = 150000 ∧
    extract_price [] = 0 ∧
    extract_price ("N/A".toList) = 0 ∧
    ∀ s : Str,
      pyFloat ((s.filter fun c => c.isDigit || c == ',' || c == '.').filter
        fun c => c != ',') = none →
      extract_price s = 0 := by
  refine ⟨by decide, by decide, by decide, ?_⟩
  intro s h
  by_cases he : s.isEmpty
  · rw [extract_price, if_pos he]
  · rw [extract_price, if_neg he]
    show (match pyFloat ((s.filter fun c => c.isDigit || c == ',' || c == '.').filter
      fun c => c != ',') with | some v => v | none => 0 : ℚ) = (0 : ℚ)
    rw [h]

/-- Witness for C7: a text whose cleaned form is empty parses to 0. -/
theorem claim_C7_witness : extract_price ("€€".toList) = 0 :=
  claim_C7.2.2.2 ("€€".toList) (by decide)

/-- C8: `extract_area` returns the value of the first numeric substring and
is total — the documented examples hold, a text with no digits gives 0, and
the number search skips any digit-free prefix (so the leftmost numeric
substring is the one found). -/
theorem claim_C8 :
    extract_area ("75.5 m²".toList) = 75.5 ∧
    extract_area ("large plot".toList) = 0 ∧
    extract_area [] = 0 ∧
    (∀ s : Str, (s.all fun c => !c.isDigit) = true → extract_area s = 0) ∧
    (∀ pre rest : Str, (pre.all fun c => !c.isDigit) = true →
      searchNumber (pre ++ rest) = searchNumber rest) := by
  refine ⟨?_, by decide, by decide, ?_, ?_⟩
  · have h1 : searchNumber ("75.5 m²".toList) = some ("75.5".toList) := by decide
    have h2 : splitOnDot ("75.5".toList) = ["75".toList, "5".toList] := by decide
    have h3 : pyFloat ("75.5".toList) =
        some ((digitsVal ("75".toList) : ℚ) + (digitsVal ("5".toList) : ℚ) / (10 : ℚ) ^ 1) := by
      unfold pyFloat
      rw [if_pos (by decide), h2]
      rfl
    have ha : digitsVal ("75".toList) = 75 := by decide
    have hb : digitsVal ("5".toList) = 5 := by decide
    rw [extract_area, if_neg (by decide), h1]
    show (match pyFloat ("75.5".toList) with | some v => v | none => 0) = (75.5 : ℚ)
    rw [h3]
    show (digitsVal ("75".toList) : ℚ) + (digitsVal ("5".toList) : ℚ) / (10 : ℚ) ^ 1 = (75.5 : ℚ)
    rw [ha, hb]
    norm_num
  · intro s h
    by_cases he : s.isEmpty
    · simp [extract_area, he]
    · simp [extract_area, he, searchNumber_none s h]
  · exact fun pre rest h => searchNumber_skip pre rest h

/-- Witness for C8: a digit-free text parses to 0, and the search over
`"ab12"` agrees with the search over its digit-led suffix `"12"`. -/
theorem claim_C8_witness :
    extract_area ("plot".toList) = 0 ∧
    searchNumber ("ab12".toList) = searchNumber ("12".toList) :=
  ⟨claim_C8.2.2.2.1 ("plot".toList) (by decide),
   claim_C8.2.2.2.2 ("ab".toList) ("12".toList) (by decide)⟩

/-- Counterexample to C9 as stated: corruption of the state file is not
always equivalent to an empty set. A parseable file whose `known_listings` is
a JSON object loads the object's keys (Python `set` of a dict iterates its
keys and raises nothing), and a string value loads its one-character
substrings — both malformed, both non-empty. -/
theorem claim_C9_counterexample :
    load_known_listings (FileState.parsed (Json.obj
      [("known_listings".toList, Json.obj [("x1".toList, Json.null)])]))
      = [Json.str ("x1".toList)] ∧
    load_known_listings (FileState.parsed (Json.obj
      [("known_listings".toList, Json.str ("ab".toList))]))
      = [Json.str ['a'], Json.str ['b']] ∧
    ([Json.str ("x1".toList)] : List Json) ≠ [] :=
  ⟨rfl, rfl, List.cons_ne_nil _ _⟩

/-- C9 as amended: loading never raises, and every error path — missing
file, unreadable or unparsable file, non-object top level, missing
`known_listings` key, non-iterable value, or a list containing an unhashable
member — yields the empty id set. A parseable object whose `known_listings`
is a string or an object, however, loads the string's characters or the
object's keys rather than the empty set. -/
theorem claim_C9_amended :
    load_known_listings FileState.absent = [] ∧
    load_known_listings FileState.unreadable = [] ∧
    (∀ j : Json, j.isObj = false → load_known_listings (FileState.parsed j) = []) ∧
    (∀ fields, jsonLookup fields ("known_listings".toList) = none →
      load_known_listings (FileState.parsed (Json.obj fields)) = []) ∧
    (∀ fields v, jsonLookup fields ("known_listings".toList) = some v →
      iterableJson v = false →
      load_known_listings (FileState.parsed (Json.obj fields)) = []) ∧
    (∀ fields elems, jsonLookup fields ("known_listings".toList) = some (Json.arr elems) →
      elems.all hashableJson = false →
      load_known_listings (FileState.parsed (Json.obj fields)) = []) ∧
    (∀ fields s, jsonLookup fields ("known_listings".toList) = some (Json.str s) →
      load_known_listings (FileState.parsed (Json.obj fields))
        = s.map fun c => Json.str [c]) ∧
    (∀ fields kfields, jsonLookup fields ("known_listings".toList) = some (Json.obj kfields) →
      load_known_listings (FileState.parsed (Json.obj fields))
        = kfields.map fun kv => Json.str kv.1) := by
  refine ⟨rfl, rfl, ?_, ?_, ?_, ?_, ?_, ?_⟩
  · intro j h
    cases j with
    | null => rfl
    | bool b => rfl
    | num q => rfl
    | str s => rfl
    | arr l => rfl
    | obj f => exact absurd h (by simp [Json.isObj])
  · intro fields h
    rw [load_parsed_obj, h]
    rfl
  · intro fields v h hit
    rw [load_parsed_obj, h]
    show setOfJson v = []
    cases v with
    | null => rfl
    | bool b => rfl
    | num q => rfl
    | str s => exact absurd hit (by simp [iterableJson])
    | arr l => exact absurd hit (by simp [iterableJson])
    | obj f => exact absurd hit (by simp [iterableJson])
  · intro fields elems h hall
    rw [load_parsed_obj, h]
    show setOfJson (Json.arr elems) = []
    simp [setOfJson, hall]
  · intro fields s h
    rw [load_parsed_obj, h]
    rfl
  · intro fields kfields h
    rw [load_parsed_obj, h]
    rfl

/-- Witness for C9 (amended): a `known_listings` bound to a bare number is
not iterable, so the `TypeError` is caught and the empty set is loaded. -/
theorem claim_C9_witness :
    load_known_listings (FileState.parsed (Json.obj
      [("known_listings".toList, Json.num 5)])) = [] :=
  claim_C9_amended.2.2.2.2.1 [("known_listings".toList, Json.num 5)] (Json.num 5) rfl rfl

/-- Counterexample to C5 as stated: a write failure after three characters
leaves the durable file holding `"new"`, not the prior content
`"old content"` — the file is truncated on `open`, so the failed save does
not leave the prior durable content untouched. -/
theorem claim_C5_counterexample :
    save_known_listings (some ("old content".toList)) ("new content".toList)
      (SaveOutcome.writeFail 3) = some ("new".toList) ∧
    some ("new".toList) ≠ some ("old content".toList) := by
  constructor
  · rfl
  · decide

/-- C5 as amended: a failed save is absorbed (the function always returns),
and a failure before `open` leaves the prior content; but once `open` has
succeeded the durable content is some prefix of the new payload — prior
content is not preserved across a mid-write failure. -/
theorem claim_C5_amended (prior : Option Str) (payload : Str) (o : SaveOutcome) :
    (o = SaveOutcome.openFail → save_known_listings prior payload o = prior) ∧
    (o ≠ SaveOutcome.openFail →
      ∃ k, save_known_listings prior payload o = some (payload.take k)) := by
  constructor
  · rintro rfl
    rfl
  · intro h
    cases o with
    | openFail => exact absurd rfl h
    | writeFail k => exact ⟨k, rfl⟩
    | ok => exact ⟨payload.length, by rw [List.take_length]; rfl⟩

/-- Witness for C5 (amended): a failure before `open` leaves the prior
content in place. -/
theorem claim_C5_witness :
    save_known_listings (some ("x".toList)) ("ab".toList) SaveOutcome.openFail
      = some ("x".toList) :=
  (claim_C5_amended (some ("x".toList)) ("ab".toList) SaveOutcome.openFail).1 rfl

/-- Counterexample to C6 as stated: on `cozyRow` the extractor emits the
description `"150000 EUR | 80 m2 | Olaine"`, although the claim's rule
(exclude currency-code and ASCII area markers too) would give `"Olaine"` —
the code only filters on the euro sign and the unicode `m²`. -/
theorem claim_C6_counterexample :
    processRow ("u".toList) cozyRow = some listingC6 ∧
    listingC6.description = "150000 EUR | 80 m2 | Olaine".toList ∧
    descriptionPerClaim listingC6.title cozyRow.cells = "Olaine".toList ∧
    listingC6.description ≠ descriptionPerClaim listingC6.title cozyRow.cells := by
  refine ⟨by decide, by decide, by decide, by decide⟩

/-- C6 as amended: exactly those cells whose text is non-empty, differs from
the title, does not contain the euro sign and does not contain the unicode
`m²` marker contribute to the description (the ASCII forms `EUR` and `m2` do
not exclude a cell), joined by the fixed separator in cell order. -/
theorem claim_C6_amended (url : Str) (row : Row) (l : Listing)
    (h : processRow url row = some l) :
    l.description = joinBar ((row.cells.map Cell.text).filter (descCellOk l.title)) := by
  simp only [processRow] at h
  split at h
  · exact Option.noConfusion h
  · split at h
    · exact Option.noConfusion h
    · cases hf : findTitleCell row.cells with
      | none => rw [hf] at h; exact Option.noConfusion h
      | some tc =>
        obtain ⟨tcell, href⟩ := tc
        rw [hf] at h
        simp only [Option.some.injEq] at h
        subst h
        show joinBar (row.cells.foldl
            (fun parts c => if descCellOk tcell.text c.text then parts ++ [c.text] else parts) [])
          = joinBar ((row.cells.map Cell.text).filter (descCellOk tcell.text))
        rw [foldl_collect_eq_filter, List.nil_append]

/-- Witness for C6 (amended): the description emitted for `cozyRow` equals
the euro-sign/unicode-marker filter of its cell texts. -/
theorem claim_C6_witness :
    listingC6.description =
      joinBar ((cozyRow.cells.map Cell.text).filter (descCellOk listingC6.title)) :=
  claim_C6_amended ("u".toList) cozyRow listingC6 (by decide)
